import Mathlib

/-!
Verification of the JSON-RPC HTTP transport (`src/transports/http.rs`) of
`async-jsonrpc`: a shallow embedding of the request builder (`prepare`),
the call executor (`execute` / `execute_batch` via `send_request`), and the
builder's authentication-header construction (`basic_auth` / `bearer_auth`),
together with proofs about identifier assignment, payload shapes, and
error propagation.

The wire types (`MethodCall`, `Params`, `Id`, `Response`, `Output`) and
their (de)serialization live in the external `jsonrpc_types` collaborator;
they are modelled here from the spec's bit-exact wire format (§6).  The
`MethodCallRequest` single/batch wrapper is crate code outside the provided
source slice and is modelled from the spec's "single"/"batch" payload
variants.  The network collaborator (`reqwest`) is abstracted as a function
from the serialized request body to either a transport failure or a reply
body.
-/

set_option autoImplicit false

namespace AsyncJsonRpc

/-- The modulus of Rust's `u64` / `AtomicU64`; `fetch_add` wraps at this
bound. -/
def u64 : Nat := 2 ^ 64

/-! ## JSON values

A standard JSON value tree, used both for serialized request bodies and
for reply bodies.  Objects are ordered association lists, matching serde's
ordered field emission. -/

inductive Json where
  | null
  | bool (b : Bool)
  | num (n : Int)
  | str (s : String)
  | arr (elems : List Json)
  | obj (fields : List (String × Json))

/-- First value bound to key `k` in an ordered object field list. -/
def lookupKey (fields : List (String × Json)) (k : String) : Option Json :=
  (fields.find? (fun p => p.1 == k)).map (fun p => p.2)

/-! ## Wire data model (from `jsonrpc_types`, per spec §3 and §6) -/

/-- Protocol version tag; the crate only ever emits `V2_0`, serialized as
the string `"2.0"`. -/
inductive Version where
  | V2_0
  deriving DecidableEq, Repr

/-- Request identifier.  `prepare` always assigns `Id::Num` with the
counter value (spec §6: `"id":<integer>`). -/
inductive Id where
  | Num (n : Nat)
  deriving DecidableEq, Repr

/-- The numeric value carried by an identifier. -/
def Id.num : Id → Nat
  | .Num n => n

/-- Positional parameters: a JSON array of values (spec §3: "positional
array or no parameters"). -/
abbrev Params : Type := List Json

/-- A JSON-RPC method call envelope (`MethodCall` in `jsonrpc_types`). -/
structure MethodCall where
  jsonrpc : Version
  method : String
  params : Option Params
  id : Id

/-- Modelled from the spec: the outbound payload wrapper
(`MethodCallRequest` in `crate::transports`, outside the source slice) —
either a "single" variant holding one call or a "batch" variant holding an
ordered sequence of calls. -/
inductive MethodCallRequest where
  | Single (call : MethodCall)
  | Batch (calls : List MethodCall)

/-- Per-call outcome (`Output` in `jsonrpc_types`): success carries the
decoded value and the echoed identifier; failure carries code, message,
optional data, and the echoed identifier or none (spec §3). -/
inductive Output where
  | success (result : Json) (id : Id)
  | failure (code : Int) (message : String) (data : Option Json) (id : Option Id)

/-- A decoded reply (`Response` in `jsonrpc_types`): one outcome, or an
ordered sequence of outcomes for a batch (spec §3). -/
inductive Response where
  | Single (output : Output)
  | Batch (outputs : List Output)

/-- The executor's error taxonomy (`crate::error::Error`, outside the
source slice), modelled from spec §7: a transport error from the network
collaborator, or a decode error for a malformed reply body. -/
inductive Error where
  | transport (msg : String)
  | decode

/-! ## Serialization (spec §6, bit-exact wire shapes) -/

/-- Modelled from the spec: single-call request body
`{"jsonrpc":"2.0","method":<name>,"params":<array-or-omitted>,"id":<int>}`,
with the `params` key omitted entirely when no parameters are given. -/
def serializeMethodCall (c : MethodCall) : Json :=
  .obj ([("jsonrpc", .str "2.0"), ("method", .str c.method)]
    ++ (match c.params with
        | none => []
        | some ps => [("params", .arr ps)])
    ++ [("id", .num (Int.ofNat c.id.num))])

/-- Modelled from the spec: a single payload serializes as the call's
object; a batch payload serializes as a JSON array of the call objects in
submission order. -/
def serializeRequest : MethodCallRequest → Json
  | .Single c => serializeMethodCall c
  | .Batch cs => .arr (cs.map serializeMethodCall)

/-! ## Reply decoding (spec §6, owned by the `jsonrpc_types` collaborator) -/

/-- Modelled from the spec: the reply's identifier position holds an
integer (success) or an integer-or-null (failure). -/
def parseId : Json → Option Id
  | .num (Int.ofNat n) => some (.Num n)
  | _ => none

/-- Modelled from the spec: decode one outcome object.  A success object is
`{"jsonrpc":"2.0","id":<integer>,"result":<value>}`; an error object is
`{"jsonrpc":"2.0","id":<integer-or-null>,"error":{"code":<int>,
"message":<string>,"data":<optional>}}`. -/
def parseOutput (j : Json) : Option Output :=
  match j with
  | .obj fields =>
    match lookupKey fields "jsonrpc" with
    | some (.str ver) =>
      if ver = "2.0" then
        match lookupKey fields "result", lookupKey fields "error" with
        | some v, none =>
          match lookupKey fields "id" with
          | some i => (parseId i).map (fun id => .success v id)
          | none => none
        | none, some (.obj efields) =>
          match lookupKey efields "code", lookupKey efields "message" with
          | some (.num code), some (.str message) =>
            match lookupKey fields "id" with
            | some .null => some (.failure code message (lookupKey efields "data") none)
            | some i => (parseId i).map
                (fun id => .failure code message (lookupKey efields "data") (some id))
            | none => none
          | _, _ => none
        | _, _ => none
      else none
    | _ => none
  | _ => none

/-- Modelled from the spec: decode an ordered sequence of outcome objects;
each element is decoded on its own, and the whole sequence decodes exactly
when every element does. -/
def parseOutputs : List Json → Option (List Output)
  | [] => some []
  | j :: rest =>
    match parseOutput j, parseOutputs rest with
    | some o, some os => some (o :: os)
    | _, _ => none

/-- Modelled from the spec: decode a reply body as a single outcome object,
or as an ordered array of outcome objects; any other outer shape (neither
object nor array) fails to decode. -/
def parseResponse (j : Json) : Option Response :=
  match j with
  | .obj _ => (parseOutput j).map .Single
  | .arr elems => (parseOutputs elems).map .Batch
  | _ => none

/-! ## Base64 and UTF-8 (the `base64` collaborator used by `basic_auth`) -/

/-- The standard base64 alphabet used by `base64::encode`. -/
def base64Alphabet : List Char :=
  "ABCDEFGHIJKLMNOPQRSTUVWXYZabcdefghijklmnopqrstuvwxyz0123456789+/".data

/-- The base64 digit for a 6-bit value. -/
def b64Char (n : Nat) : Char := base64Alphabet.getD n '='

/-- Standard base64 with `=` padding over a byte sequence, as produced by
`base64::encode`. -/
def base64Encode : List Nat → String
  | [] => ""
  | [a] =>
    String.mk [b64Char (a / 4), b64Char (a % 4 * 16), '=', '=']
  | [a, b] =>
    String.mk [b64Char (a / 4), b64Char (a % 4 * 16 + b / 16), b64Char (b % 16 * 4), '=']
  | a :: b :: c :: rest =>
    String.mk [b64Char (a / 4), b64Char (a % 4 * 16 + b / 16),
      b64Char (b % 16 * 4 + c / 64), b64Char (c % 64)] ++ base64Encode rest

/-- UTF-8 encoding of one code point (Rust strings are UTF-8). -/
def utf8Bytes (c : Char) : List Nat :=
  let n := c.toNat
  if n < 0x80 then [n]
  else if n < 0x800 then [0xC0 + n / 64, 0x80 + n % 64]
  else if n < 0x10000 then [0xE0 + n / 4096, 0x80 + n / 64 % 64, 0x80 + n % 64]
  else [0xF0 + n / 262144, 0x80 + n / 4096 % 64, 0x80 + n / 64 % 64, 0x80 + n % 64]

/-- The UTF-8 byte sequence of a string. -/
def strBytes (s : String) : List Nat := (s.data.map utf8Bytes).flatten

/-! ## `HttpTransportBuilder` -/

/-- Header maps are modelled as ordered association lists of lowercase
header names to values. -/
abbrev HeaderMap : Type := List (String × String)

/-- `reqwest::header::AUTHORIZATION`. -/
def AUTHORIZATION : String := "authorization"

/-- `HeaderMap::insert`: replace the value bound to `name` in place if
present, otherwise append the pair. -/
def headersInsert (hs : HeaderMap) (name value : String) : HeaderMap :=
  if hs.any (fun p => p.1 == name) then
    hs.map (fun p => if p.1 == name then (name, value) else p)
  else
    hs ++ [(name, value)]

/-- `HeaderMap::get`: the first value bound to `name`. -/
def headersGet (hs : HeaderMap) (name : String) : Option String :=
  (hs.find? (fun p => p.1 == name)).map (fun p => p.2)

/-- The `http` crate's header-value byte validity used by
`HeaderValue::from_str`: a byte is legal iff it is horizontal tab, or lies
in `32..=255` excluding 127 (DEL). -/
def isValidHeaderByte (b : Nat) : Bool :=
  b == 9 || (32 ≤ b && b != 127)

/-- `HeaderValue::from_str`: succeeds with the string itself exactly when
every UTF-8 byte of the string is a legal header value byte, and fails
otherwise. -/
def headerValueFromStr (s : String) : Option String :=
  if (strBytes s).all isValidHeaderByte then some s else none

/-- Configuration collected by `HttpTransportBuilder` (durations as
milliseconds; `pool_max_idle_per_host` is a `usize`). -/
structure HttpTransportBuilder where
  headers : HeaderMap
  timeout : Option Nat
  connect_timeout : Option Nat
  pool_idle_timeout : Option Nat
  pool_max_idle_per_host : Nat
  tcp_keepalive : Option Nat
  tcp_nodelay : Bool
  https_only : Bool

namespace HttpTransportBuilder

/-- `HttpTransportBuilder::new`. -/
def new : HttpTransportBuilder where
  headers := []
  timeout := none
  connect_timeout := none
  pool_idle_timeout := some 90000
  pool_max_idle_per_host := u64 - 1
  tcp_keepalive := none
  tcp_nodelay := false
  https_only := false

/-- `HttpTransportBuilder::header`. -/
def header (b : HttpTransportBuilder) (name value : String) : HttpTransportBuilder :=
  { b with headers := headersInsert b.headers name value }

/-- `HttpTransportBuilder::basic_auth`: sets the Authorization header to
`"Basic "` followed by the base64 encoding of `username:password` (or of
`username:` when no password is given). -/
def basic_auth (b : HttpTransportBuilder) (username : String) (password : Option String) :
    HttpTransportBuilder :=
  let auth :=
    match password with
    | some password => base64Encode (strBytes (username ++ ":" ++ password))
    | none => base64Encode (strBytes (username ++ ":"))
  b.header AUTHORIZATION ("Basic " ++ auth)

/-- `HttpTransportBuilder::bearer_auth`: formats `"Bearer "` followed by
the token, validates it with `HeaderValue::from_str` — the `expect` panics
when the formatted value contains an illegal header byte, modelled as
`none` — and on success sets the Authorization header to it. -/
def bearer_auth (b : HttpTransportBuilder) (token : String) : Option HttpTransportBuilder :=
  (headerValueFromStr ("Bearer " ++ token)).map (fun value => b.header AUTHORIZATION value)

end HttpTransportBuilder

/-! ## `HttpTransport` -/

/-- The transport: a URL and the shared identifier counter.  The counter
models the `Arc<AtomicU64>`: `#[derive(Clone)]` copies the `Arc`, so the
original and every clone operate on this one cell.  The `reqwest::Client`
collaborator is abstracted away here and supplied to the executor
operations as a network function. -/
structure HttpTransport where
  url : String
  id : Nat

namespace HttpTransportBuilder

/-- `HttpTransportBuilder::build` (the successful case; construction of the
`reqwest::Client` collaborator can fail for external reasons and is out of
scope): the counter starts at `AtomicU64::new(1)`. -/
def build (_b : HttpTransportBuilder) (url : String) : HttpTransport where
  url := url
  id := 1

end HttpTransportBuilder

namespace HttpTransport

/-- `AtomicU64::fetch_add(1, ...)`: returns the previous value and stores
the incremented value, wrapping at `2^64`. -/
def fetch_add (c : Nat) : Nat × Nat := (c, (c + 1) % u64)

/-- `HttpTransport::prepare`: atomically fetch-and-increment the shared
counter and build a `MethodCall` with version `2.0`, the given method, the
given optional params, and the fresh identifier.  The counter update is a
single indivisible step, so a concurrent execution of `prepare` calls is an
interleaving of these atomic steps. -/
def prepare (t : HttpTransport) (method : String) (params : Option Params) :
    MethodCall × HttpTransport :=
  let (id, id') := fetch_add t.id
  ({ jsonrpc := .V2_0, method := method, params := params, id := .Num id },
   { t with id := id' })

/-- The network collaborator: maps a serialized request body to a transport
failure or a raw reply body.  This stands for
`client.post(url).json(&request).send()` plus reading the reply. -/
abbrev Net : Type := Json → Except String Json

/-- `HttpTransport::send_request`: serialize the request, send it through
the network collaborator (a failure there aborts with a transport error,
via `?`), then decode the reply body (a failure there aborts with a decode
error, via `?`). -/
def send_request (net : Net) (request : MethodCallRequest) : Except Error Response :=
  match net (serializeRequest request) with
  | .error e => .error (.transport e)
  | .ok body =>
    match parseResponse body with
    | some r => .ok r
    | none => .error .decode

/-- `Transport::execute` for `HttpTransport`: wrap the one call as the
`Single` payload variant and send it. -/
def execute (net : Net) (call : MethodCall) : Except Error Response :=
  send_request net (.Single call)

/-- `BatchTransport::execute_batch` for `HttpTransport`: collect the
ordered iterable of calls (collecting preserves order) into the `Batch`
payload variant and send it. -/
def execute_batch (net : Net) (calls : List MethodCall) : Except Error Response :=
  send_request net (.Batch calls)

/-- Run a sequence of `prepare` calls against the shared counter, returning
the calls in execution order together with the final transport state. -/
def prepareSeq (t : HttpTransport) :
    List (String × Option Params) → List MethodCall × HttpTransport
  | [] => ([], t)
  | (m, p) :: rest =>
    let (call, t') := prepare t m p
    let (calls, t'') := prepareSeq t' rest
    (call :: calls, t'')

/-- Run an interleaved sequence of `prepare` calls issued through the
original transport or any of its clones.  Each request is tagged with the
handle (clone) that issues it; since `Clone` copies the `Arc`, every handle
dereferences the same atomic counter, so the tag does not enter the step. -/
def prepareSeqShared (t : HttpTransport) :
    List (Nat × String × Option Params) → List MethodCall × HttpTransport
  | [] => ([], t)
  | (_handle, m, p) :: rest =>
    let (call, t') := prepare t m p
    let (calls, t'') := prepareSeqShared t' rest
    (call :: calls, t'')

end HttpTransport

/-! ## Concrete values used in examples and witnesses -/

/-- Whether a serialized object carries the key `k`. -/
def jsonHasKey (j : Json) (k : String) : Bool :=
  match j with
  | .obj fields => (lookupKey fields k).isSome
  | _ => false

/-- The value a serialized object carries at key `k`. -/
def jsonGet (j : Json) (k : String) : Option Json :=
  match j with
  | .obj fields => lookupKey fields k
  | _ => none

/-- The spec's example call `{"jsonrpc":"2.0","method":"foo","id":1}`. -/
def call_foo : MethodCall :=
  { jsonrpc := .V2_0, method := "foo", params := none, id := .Num 1 }

/-- The spec's example call
`{"jsonrpc":"2.0","method":"bar","params":[],"id":2}`. -/
def call_bar : MethodCall :=
  { jsonrpc := .V2_0, method := "bar", params := some [], id := .Num 2 }

/-- Modelled from the spec: a success reply object
`{"jsonrpc":"2.0","id":<n>,"result":<v>}`. -/
def successJson (v : String) (n : Nat) : Json :=
  .obj [("jsonrpc", .str "2.0"), ("id", .num (Int.ofNat n)), ("result", .str v)]

/-- Modelled from the spec: a well-formed error reply object
`{"jsonrpc":"2.0","id":<n-or-null>,"error":{"code":<c>,"message":<m>}}`. -/
def errorBody (code : Int) (message : String) (id : Option Nat) : Json :=
  .obj [("jsonrpc", .str "2.0"),
    ("id", match id with | some n => .num (Int.ofNat n) | none => .null),
    ("error", .obj [("code", .num code), ("message", .str message)])]

/-- A small request sequence used to instantiate the identifier theorems. -/
def demoReqs : List (String × Option Params) :=
  [("a", none), ("b", some []), ("c", none)]

/-- A small handle-tagged request sequence: calls issued alternately through
the original transport (tag 0) and a clone (tag 1). -/
def demoTagged : List (Nat × String × Option Params) :=
  [(0, ("a", none)), (1, ("b", none)), (0, ("c", none))]

/-- A handle-tagged request sequence of length `2^64 + 1`, alternating
between the original transport and a clone. -/
def longTagged : List (Nat × String × Option Params) :=
  (List.range (u64 + 1)).map (fun i => (i % 2, ("m", none)))

/-! ## Helper lemmas -/

theorem find_replace {n v : String} (hs : HeaderMap)
    (h : hs.any (fun p => p.1 == n) = true) :
    ((hs.map (fun p => if p.1 == n then (n, v) else p)).find? (fun p => p.1 == n))
      = some (n, v) := by
  induction hs with
  | nil => simp at h
  | cons a tl ih =>
    by_cases ha : a.1 = n
    · simp [List.find?, ha]
    · have ha' : (a.1 == n) = false := beq_false_of_ne ha
      simp only [List.any_cons, ha', Bool.false_or] at h
      rw [List.map_cons, if_neg (by simp [ha']),
        List.find?_cons_of_neg _ (by simp [ha'])]
      exact ih h

theorem find_append {n v : String} (hs : HeaderMap)
    (h : hs.any (fun p => p.1 == n) = false) :
    ((hs ++ [(n, v)]).find? (fun p => p.1 == n)) = some (n, v) := by
  induction hs with
  | nil => simp [List.find?]
  | cons a tl ih =>
    simp only [List.any_cons, Bool.or_eq_false_iff] at h
    simp only [List.cons_append, List.find?, h.1]
    exact ih h.2

/-- After `HeaderMap::insert`, looking the name up yields exactly the
inserted value. -/
theorem headersGet_headersInsert (hs : HeaderMap) (n v : String) :
    headersGet (headersInsert hs n v) n = some v := by
  unfold headersGet headersInsert
  by_cases h : hs.any (fun p => p.1 == n) = true
  · rw [if_pos h, find_replace hs h]; rfl
  · rw [if_neg h, find_append hs (Bool.eq_false_iff.mpr h)]; rfl

namespace HttpTransport

/-- The identifiers of a sequence of `prepare` calls are the successive
counter values `(c + i) mod 2^64` starting from the current counter `c`,
and the final counter is `(c + n) mod 2^64`. -/
theorem prepareSeq_ids (t : HttpTransport) (reqs : List (String × Option Params))
    (ht : t.id < u64) :
    ((t.prepareSeq reqs).1.map MethodCall.id
        = (List.range reqs.length).map (fun i => Id.Num ((t.id + i) % u64)))
    ∧ (t.prepareSeq reqs).2.id = (t.id + reqs.length) % u64 := by
  induction reqs generalizing t with
  | nil =>
    simp [prepareSeq, Nat.mod_eq_of_lt ht]
  | cons hd tl ih =>
    obtain ⟨m, p⟩ := hd
    have hpos : 0 < u64 := by decide
    have ht' : (t.id + 1) % u64 < u64 := Nat.mod_lt _ hpos
    obtain ⟨ih1, ih2⟩ := ih { t with id := (t.id + 1) % u64 } ht'
    constructor
    · simp only [prepareSeq, prepare, fetch_add, List.map_cons, List.length_cons,
        List.range_succ_eq_map, List.map_map]
      refine congrArg₂ List.cons (by simp [Nat.mod_eq_of_lt ht]) ?_
      rw [ih1]
      refine List.map_congr_left fun i _ => ?_
      simp only [Function.comp]
      congr 1
      rw [Nat.mod_add_mod]
      congr 1
      omega
    · simp only [prepareSeq, prepare, fetch_add]
      rw [ih2, Nat.mod_add_mod, List.length_cons]
      congr 1
      omega

/-- `prepareSeqShared` ignores the handle tags: every handle dereferences
the same shared counter, so the run equals a `prepareSeq` of the untagged
requests. -/
theorem prepareSeqShared_eq (t : HttpTransport)
    (reqs : List (Nat × String × Option Params)) :
    t.prepareSeqShared reqs = t.prepareSeq (reqs.map (fun r => r.2)) := by
  induction reqs generalizing t with
  | nil => rfl
  | cons hd tl ih =>
    obtain ⟨h, m, p⟩ := hd
    simp only [prepareSeqShared, prepareSeq, List.map_cons, ih]

/-- Successive counter values are pairwise distinct for up to `2^64`
steps. -/
theorem ids_nodup (c n : Nat) (hn : n ≤ u64) :
    ((List.range n).map (fun i => Id.Num ((c + i) % u64))).Nodup := by
  refine List.Nodup.map_on ?_ (List.nodup_range n)
  intro i hi j hj hij
  have hi' : i < n := List.mem_range.mp hi
  have hj' : j < n := List.mem_range.mp hj
  have h1 : (c + i) % u64 = (c + j) % u64 := by
    injection hij
  have h2 : i % u64 = j % u64 := Nat.ModEq.add_left_cancel' c h1
  rw [Nat.mod_eq_of_lt (lt_of_lt_of_le hi' hn),
    Nat.mod_eq_of_lt (lt_of_lt_of_le hj' hn)] at h2
  exact h2

end HttpTransport

/-! ## Claims -/

/-- C1 (amended): for every sequence of `N < 2^64` concurrent `prepare`
calls on one freshly built transport instance, the `N` resulting
identifiers are pairwise distinct and all `≥ 1`.  Each `prepare` performs a
single atomic fetch-and-increment (not a separate read then write), so a
concurrent execution is an arbitrary serialization of these atomic steps;
the theorem quantifies over every such serialization (`reqs` lists the
calls in the order their counter updates commit).  The bound `N < 2^64` is
forced by the wrap-around of `AtomicU64::fetch_add`; see the
counterexample at `N = 2^64`. -/
theorem C1_prepare_ids_distinct_and_positive (url : String)
    (reqs : List (String × Option Params)) (h : reqs.length < u64) :
    (((HttpTransportBuilder.new.build url).prepareSeq reqs).1.map MethodCall.id).Nodup
    ∧ ∀ i ∈ ((HttpTransportBuilder.new.build url).prepareSeq reqs).1.map MethodCall.id,
        1 ≤ i.num := by
  have ht : (HttpTransportBuilder.new.build url).id < u64 := (by decide : (1:Nat) < u64)
  obtain ⟨h1, -⟩ := HttpTransport.prepareSeq_ids _ reqs ht
  rw [h1]
  simp only [show (HttpTransportBuilder.new.build url).id = 1 from rfl]
  constructor
  · exact HttpTransport.ids_nodup 1 _ (le_of_lt h)
  · intro i hi
    obtain ⟨j, hj, rfl⟩ := List.mem_map.mp hi
    have hj' : j < reqs.length := List.mem_range.mp hj
    have hlt : 1 + j < u64 := by
      rw [Nat.add_comm]
      exact lt_of_le_of_lt (Nat.succ_le_of_lt hj') h
    show 1 ≤ (1 + j) % u64
    rw [Nat.mod_eq_of_lt hlt]
    exact Nat.le_add_right 1 j

/-- Witness for C1 at a concrete three-call sequence. -/
theorem C1_witness :
    demoReqs.length < u64
    ∧ ((((HttpTransportBuilder.new.build "http://x").prepareSeq demoReqs).1.map
          MethodCall.id).Nodup
      ∧ ∀ i ∈ ((HttpTransportBuilder.new.build "http://x").prepareSeq demoReqs).1.map
          MethodCall.id, 1 ≤ i.num) :=
  ⟨by decide, C1_prepare_ids_distinct_and_positive "http://x" demoReqs (by decide)⟩

/-- Counterexample to C1 as stated: after `2^64` prepare calls on one
fresh transport, the wrapped `u64` counter has handed out the identifier
`0`, so the identifiers are not all `≥ 1`. -/
theorem C1_counterexample :
    ¬ ((((HttpTransportBuilder.new.build "http://server").prepareSeq
          (List.replicate u64 ("m", (none : Option Params)))).1.map MethodCall.id).Nodup
      ∧ ∀ i ∈ ((HttpTransportBuilder.new.build "http://server").prepareSeq
          (List.replicate u64 ("m", (none : Option Params)))).1.map MethodCall.id,
          1 ≤ i.num) := by
  intro h
  obtain ⟨-, h2⟩ := h
  have ht : (HttpTransportBuilder.new.build "http://server").id < u64 :=
    (by decide : (1:Nat) < u64)
  obtain ⟨h1, -⟩ := HttpTransport.prepareSeq_ids (HttpTransportBuilder.new.build "http://server")
    (List.replicate u64 ("m", (none : Option Params))) ht
  rw [h1] at h2
  have hm : Id.Num 0 ∈ (List.range (List.replicate u64 ("m", (none : Option Params))).length).map
      (fun i => Id.Num (((HttpTransportBuilder.new.build "http://server").id + i) % u64)) := by
    refine List.mem_map.mpr ⟨u64 - 1, List.mem_range.mpr ?_, ?_⟩
    · rw [List.length_replicate]
      exact Nat.sub_lt (by decide) (by decide)
    · show Id.Num ((1 + (u64 - 1)) % u64) = Id.Num 0
      decide
  exact absurd (h2 _ hm) (by decide)

/-- C2 (amended): the identifier counter of a freshly built transport
starts at 1, so for every sequence of `prepare` calls the `k`-th call
receives identifier `k` for all `k < 2^64`, and the counter never resets
and never decreases while fewer than `2^64` total increments have
happened.  The `u64` counter wraps to 0 on the `2^64`-th increment, which
forces both bounds; see the counterexample. -/
theorem C2_kth_identifier_and_monotonicity (url : String)
    (reqs : List (String × Option Params))
    (k : Nat) (hk1 : 1 ≤ k) (hku : k < u64) (hklen : k ≤ reqs.length) :
    (((HttpTransportBuilder.new.build url).prepareSeq reqs).1.map MethodCall.id)[k - 1]?
      = some (Id.Num k)
    ∧ ∀ j j', j ≤ j' → 1 + j' < u64 →
        ((HttpTransportBuilder.new.build url).prepareSeq (reqs.take j)).2.id
          ≤ ((HttpTransportBuilder.new.build url).prepareSeq (reqs.take j')).2.id := by
  have ht : (HttpTransportBuilder.new.build url).id < u64 := (by decide : (1:Nat) < u64)
  constructor
  · obtain ⟨h1, -⟩ := HttpTransport.prepareSeq_ids _ reqs ht
    rw [h1]
    simp only [show (HttpTransportBuilder.new.build url).id = 1 from rfl]
    have hk : k - 1 < reqs.length := by omega
    rw [List.getElem?_map, List.getElem?_range hk, Option.map_some']
    have h2 : 1 + (k - 1) = k := by omega
    rw [h2, Nat.mod_eq_of_lt hku]
  · intro j j' hjj hju
    obtain ⟨-, h2⟩ := HttpTransport.prepareSeq_ids
      (HttpTransportBuilder.new.build url) (reqs.take j) ht
    obtain ⟨-, h2'⟩ := HttpTransport.prepareSeq_ids
      (HttpTransportBuilder.new.build url) (reqs.take j') ht
    rw [h2, h2', show (HttpTransportBuilder.new.build url).id = 1 from rfl,
      List.length_take, List.length_take]
    have hminj : min j reqs.length ≤ j' := le_trans (min_le_left _ _) hjj
    have hminj' : min j' reqs.length ≤ j' := min_le_left _ _
    rw [Nat.mod_eq_of_lt (by omega), Nat.mod_eq_of_lt (by omega)]
    have : min j reqs.length ≤ min j' reqs.length := by omega
    omega

/-- Witness for C2: the second of three calls receives identifier 2. -/
theorem C2_witness :
    1 ≤ 2 ∧ 2 < u64 ∧ 2 ≤ demoReqs.length
    ∧ ((((HttpTransportBuilder.new.build "http://x").prepareSeq demoReqs).1.map
          MethodCall.id)[2 - 1]? = some (Id.Num 2)
      ∧ ∀ j j', j ≤ j' → 1 + j' < u64 →
          ((HttpTransportBuilder.new.build "http://x").prepareSeq (demoReqs.take j)).2.id
            ≤ ((HttpTransportBuilder.new.build "http://x").prepareSeq (demoReqs.take j')).2.id) :=
  ⟨by decide, by decide, by decide,
    C2_kth_identifier_and_monotonicity "http://x" demoReqs 2 (by decide) (by decide) (by decide)⟩

/-- Counterexample to C2 as stated: on a fresh transport the `2^64`-th
`prepare` call receives identifier 0, not `2^64`, and after `2^64 - 1`
calls the counter has wrapped to 0, strictly below its initial value 1 —
the counter does roll back. -/
theorem C2_counterexample :
    (((HttpTransportBuilder.new.build "http://server").prepareSeq
        (List.replicate u64 ("m", (none : Option Params)))).1.map MethodCall.id)[u64 - 1]?
      = some (Id.Num 0)
    ∧ Id.Num 0 ≠ Id.Num u64
    ∧ ((HttpTransportBuilder.new.build "http://server").prepareSeq
        (List.replicate (u64 - 1) ("m", (none : Option Params)))).2.id
      < (HttpTransportBuilder.new.build "http://server").id := by
  have ht : (HttpTransportBuilder.new.build "http://server").id < u64 :=
    (by decide : (1:Nat) < u64)
  refine ⟨?_, by decide, ?_⟩
  · obtain ⟨h1, -⟩ := HttpTransport.prepareSeq_ids
      (HttpTransportBuilder.new.build "http://server")
      (List.replicate u64 ("m", (none : Option Params))) ht
    rw [h1, List.length_replicate]
    have hlt : u64 - 1 < u64 := Nat.sub_lt (by decide) (by decide)
    rw [List.getElem?_map, List.getElem?_range hlt, Option.map_some']
    show some (Id.Num ((1 + (u64 - 1)) % u64)) = some (Id.Num 0)
    decide
  · obtain ⟨-, h2⟩ := HttpTransport.prepareSeq_ids
      (HttpTransportBuilder.new.build "http://server")
      (List.replicate (u64 - 1) ("m", (none : Option Params))) ht
    rw [h2, List.length_replicate]
    show (1 + (u64 - 1)) % u64 < 1
    decide

/-- C3: `prepare(method, params)` returns a `MethodCall` whose version tag
is fixed to `2.0`, whose method is the given name, whose params are exactly
the given optional params — serializing without a `params` key iff the
params are absent, and with the given (possibly empty) array otherwise —
and whose identifier is the freshly fetched counter value.  `prepare` is a
total function: it has no failure modes. -/
theorem C3_prepare_call_shape (t : HttpTransport) (method : String) (params : Option Params) :
    (t.prepare method params).1.jsonrpc = Version.V2_0
    ∧ (t.prepare method params).1.method = method
    ∧ (t.prepare method params).1.params = params
    ∧ (t.prepare method params).1.id = Id.Num t.id
    ∧ jsonHasKey (serializeMethodCall (t.prepare method params).1) "params" = params.isSome
    ∧ jsonGet (serializeMethodCall (t.prepare method params).1) "params" = params.map Json.arr := by
  refine ⟨rfl, rfl, rfl, rfl, ?_, ?_⟩ <;> cases params <;> rfl

/-- C4: `execute` wraps its one call as the `Single` variant of the
outbound payload and `execute_batch` collects the calls, in order, into the
`Batch` variant; the batch payload serializes as a JSON array listing the
calls in exactly the submission order.  In particular methods
`["foo","bar"]` with identifiers `[1,2]` serialize as a two-element array
in that exact order. -/
theorem C4_single_batch_wrapping_and_order :
    (∀ (net : HttpTransport.Net) (call : MethodCall),
        HttpTransport.execute net call = HttpTransport.send_request net (.Single call))
    ∧ (∀ (net : HttpTransport.Net) (calls : List MethodCall),
        HttpTransport.execute_batch net calls = HttpTransport.send_request net (.Batch calls))
    ∧ (∀ calls : List MethodCall,
        serializeRequest (.Batch calls) = Json.arr (calls.map serializeMethodCall))
    ∧ serializeRequest (.Batch [call_foo, call_bar])
        = Json.arr
            [.obj [("jsonrpc", .str "2.0"), ("method", .str "foo"), ("id", .num 1)],
             .obj [("jsonrpc", .str "2.0"), ("method", .str "bar"), ("params", .arr []),
               ("id", .num 2)]] :=
  ⟨fun _ _ => rfl, fun _ _ => rfl, fun _ => rfl, rfl⟩

/-- C5: a network failure, or a reply body whose outer shape is neither an
object nor an array, makes `execute` and `execute_batch` return an error
immediately (transport error resp. decode error); the result is an
`Except.error`, never a success and never partial batch results. -/
theorem C5_transport_decode_errors_abort (e : String) (call : MethodCall)
    (calls : List MethodCall) (body : Json)
    (hobj : ∀ fields, body ≠ Json.obj fields)
    (harr : ∀ elems, body ≠ Json.arr elems) :
    HttpTransport.execute (fun _ => .error e) call = .error (.transport e)
    ∧ HttpTransport.execute_batch (fun _ => .error e) calls = .error (.transport e)
    ∧ HttpTransport.execute (fun _ => .ok body) call = .error .decode
    ∧ HttpTransport.execute_batch (fun _ => .ok body) calls = .error .decode := by
  have hparse : parseResponse body = none := by
    cases body
    case obj fields => exact absurd rfl (hobj fields)
    case arr elems => exact absurd rfl (harr elems)
    all_goals rfl
  refine ⟨rfl, rfl, ?_, ?_⟩ <;>
    simp [HttpTransport.execute, HttpTransport.execute_batch, HttpTransport.send_request, hparse]

/-- Witness for C5 at a failing network and a malformed string body. -/
theorem C5_witness :
    (∀ fields, Json.str "oops" ≠ Json.obj fields)
    ∧ (∀ elems, Json.str "oops" ≠ Json.arr elems)
    ∧ (HttpTransport.execute (fun _ => .error "connection refused") call_foo
        = .error (.transport "connection refused")
      ∧ HttpTransport.execute_batch (fun _ => .error "connection refused") [call_foo, call_bar]
        = .error (.transport "connection refused")
      ∧ HttpTransport.execute (fun _ => .ok (Json.str "oops")) call_foo = .error .decode
      ∧ HttpTransport.execute_batch (fun _ => .ok (Json.str "oops")) [call_foo, call_bar]
        = .error .decode) :=
  ⟨fun _ h => Json.noConfusion h, fun _ h => Json.noConfusion h,
    C5_transport_decode_errors_abort "connection refused" call_foo [call_foo, call_bar]
      (Json.str "oops") (fun _ h => Json.noConfusion h) (fun _ h => Json.noConfusion h)⟩

/-- C6: a well-formed JSON-RPC error object returned by the server is
delivered as a failed `Output` inside an `Except.ok` response, never as an
error of `execute`/`execute_batch` itself; and in a successfully decoded
batch every element decodes on its own, so one failed outcome sits next to
its sibling outcomes (concretely: a success and an error in one reply array
yield `Ok` with both outcomes). -/
theorem C6_protocol_error_outcomes_are_data (code : Int) (message : String) (n : Nat)
    (call : MethodCall) (calls : List MethodCall)
    (elems : List Json) (outs : List Output)
    (hparse : parseOutputs elems = some outs) :
    HttpTransport.execute (fun _ => .ok (errorBody code message (some n))) call
      = .ok (.Single (.failure code message none (some (.Num n))))
    ∧ HttpTransport.execute_batch (fun _ => .ok (Json.arr elems)) calls = .ok (.Batch outs)
    ∧ HttpTransport.execute_batch
        (fun _ => .ok (Json.arr [successJson "x" 1, errorBody (-32601) "Method not found" (some 2)]))
        calls
      = .ok (.Batch [.success (.str "x") (.Num 1),
          .failure (-32601) "Method not found" none (some (.Num 2))]) := by
  refine ⟨rfl, ?_, rfl⟩
  simp [HttpTransport.execute_batch, HttpTransport.send_request, parseResponse, hparse]

/-- Witness for C6 at a concrete mixed success/error batch reply. -/
theorem C6_witness :
    parseOutputs [successJson "x" 1, errorBody (-32601) "Method not found" (some 2)]
      = some [.success (.str "x") (.Num 1),
          .failure (-32601) "Method not found" none (some (.Num 2))]
    ∧ (HttpTransport.execute (fun _ => .ok (errorBody (-32601) "Method not found" (some 7)))
          call_foo
        = .ok (.Single (.failure (-32601) "Method not found" none (some (.Num 7))))
      ∧ HttpTransport.execute_batch
          (fun _ => .ok (Json.arr [successJson "x" 1,
            errorBody (-32601) "Method not found" (some 2)])) [call_foo]
        = .ok (.Batch [.success (.str "x") (.Num 1),
            .failure (-32601) "Method not found" none (some (.Num 2))])
      ∧ HttpTransport.execute_batch
          (fun _ => .ok (Json.arr [successJson "x" 1,
            errorBody (-32601) "Method not found" (some 2)])) [call_foo]
        = .ok (.Batch [.success (.str "x") (.Num 1),
            .failure (-32601) "Method not found" none (some (.Num 2))])) :=
  ⟨rfl, C6_protocol_error_outcomes_are_data (-32601) "Method not found" 7 call_foo [call_foo]
    [successJson "x" 1, errorBody (-32601) "Method not found" (some 2)]
    [.success (.str "x") (.Num 1), .failure (-32601) "Method not found" none (some (.Num 2))]
    rfl⟩

/-- C7: `basic_auth(username, password)` sets the Authorization header to
`"Basic "` followed by the base64 encoding of `username:password` when a
password is given and of `username:` otherwise; in particular
`("username", some "password")`, `("username", none)` and
`("", some "password")` yield the three expected header values. -/
theorem C7_basic_auth_header (b : HttpTransportBuilder) (username password : String) :
    headersGet (b.basic_auth username (some password)).headers AUTHORIZATION
      = some ("Basic " ++ base64Encode (strBytes (username ++ ":" ++ password)))
    ∧ headersGet (b.basic_auth username none).headers AUTHORIZATION
      = some ("Basic " ++ base64Encode (strBytes (username ++ ":")))
    ∧ headersGet (HttpTransportBuilder.new.basic_auth "username" (some "password")).headers
        AUTHORIZATION = some "Basic dXNlcm5hbWU6cGFzc3dvcmQ="
    ∧ headersGet (HttpTransportBuilder.new.basic_auth "username" none).headers
        AUTHORIZATION = some "Basic dXNlcm5hbWU6"
    ∧ headersGet (HttpTransportBuilder.new.basic_auth "" (some "password")).headers
        AUTHORIZATION = some "Basic OnBhc3N3b3Jk" :=
  ⟨headersGet_headersInsert b.headers AUTHORIZATION _,
   headersGet_headersInsert b.headers AUTHORIZATION _,
   by decide, by decide, by decide⟩

/-- C8 (amended): when the formatted value `"Bearer " ++ token` passes the
`HeaderValue::from_str` byte check, `bearer_auth(token)` succeeds and sets
the Authorization header to `"Bearer "` followed by the token verbatim;
for `"Hold my bear"` it succeeds with header value exactly
`"Bearer Hold my bear"`.  For a token with an illegal header byte the
source panics in the `expect` and sets no header; see the counterexample. -/
theorem C8_bearer_auth_header (b : HttpTransportBuilder) (token : String)
    (h : (strBytes ("Bearer " ++ token)).all isValidHeaderByte = true) :
    b.bearer_auth token = some (b.header AUTHORIZATION ("Bearer " ++ token))
    ∧ headersGet (b.header AUTHORIZATION ("Bearer " ++ token)).headers AUTHORIZATION
      = some ("Bearer " ++ token)
    ∧ HttpTransportBuilder.new.bearer_auth "Hold my bear"
      = some (HttpTransportBuilder.new.header AUTHORIZATION "Bearer Hold my bear") := by
  refine ⟨?_, headersGet_headersInsert b.headers AUTHORIZATION _, rfl⟩
  simp [HttpTransportBuilder.bearer_auth, headerValueFromStr, h]

/-- Witness for C8 at the spec's token `"Hold my bear"`. -/
theorem C8_witness :
    (strBytes ("Bearer " ++ "Hold my bear")).all isValidHeaderByte = true
    ∧ (HttpTransportBuilder.new.bearer_auth "Hold my bear"
        = some (HttpTransportBuilder.new.header AUTHORIZATION ("Bearer " ++ "Hold my bear"))
      ∧ headersGet (HttpTransportBuilder.new.header AUTHORIZATION
            ("Bearer " ++ "Hold my bear")).headers AUTHORIZATION
        = some ("Bearer " ++ "Hold my bear")
      ∧ HttpTransportBuilder.new.bearer_auth "Hold my bear"
        = some (HttpTransportBuilder.new.header AUTHORIZATION "Bearer Hold my bear")) :=
  ⟨by decide, C8_bearer_auth_header HttpTransportBuilder.new "Hold my bear" (by decide)⟩

/-- Counterexample to C8 as stated: for the token `"a\nb"` (a line feed is
an illegal header value byte) `HeaderValue::from_str` fails, the source
panics in the `expect`, and no Authorization header holding
`"Bearer a\nb"` is ever produced. -/
theorem C8_counterexample :
    HttpTransportBuilder.new.bearer_auth "a\nb" = none
    ∧ (HttpTransportBuilder.new.bearer_auth "a\nb").map
        (fun b => headersGet b.headers AUTHORIZATION)
      ≠ some (some ("Bearer " ++ "a\nb")) :=
  ⟨rfl, fun h => Option.noConfusion h⟩

/-- C9 (amended): cloning shares the identifier counter (it lives behind a
shared `Arc`): for every interleaved sequence of at most `2^64` `prepare`
calls on a fresh transport and any of its clones, the identifiers are
pairwise distinct and are, in execution order, the successive values of the
single shared counter sequence `i ↦ (1 + i) mod 2^64`.  The `2^64` bound is
forced by `u64` wrap-around; see the counterexample. -/
theorem C9_clones_share_counter (url : String)
    (reqs : List (Nat × String × Option Params)) (h : reqs.length ≤ u64) :
    (((HttpTransportBuilder.new.build url).prepareSeqShared reqs).1.map MethodCall.id).Nodup
    ∧ ((HttpTransportBuilder.new.build url).prepareSeqShared reqs).1.map MethodCall.id
        = (List.range reqs.length).map (fun i => Id.Num ((1 + i) % u64)) := by
  have ht : (HttpTransportBuilder.new.build url).id < u64 := (by decide : (1:Nat) < u64)
  rw [HttpTransport.prepareSeqShared_eq]
  obtain ⟨h1, -⟩ := HttpTransport.prepareSeq_ids
    (HttpTransportBuilder.new.build url) (reqs.map (fun r => r.2)) ht
  rw [h1, List.length_map]
  simp only [show (HttpTransportBuilder.new.build url).id = 1 from rfl]
  exact ⟨HttpTransport.ids_nodup 1 _ h, trivial⟩

/-- Witness for C9 at a concrete interleaving across two handles. -/
theorem C9_witness :
    demoTagged.length ≤ u64
    ∧ ((((HttpTransportBuilder.new.build "http://x").prepareSeqShared demoTagged).1.map
          MethodCall.id).Nodup
      ∧ ((HttpTransportBuilder.new.build "http://x").prepareSeqShared demoTagged).1.map
          MethodCall.id
        = (List.range demoTagged.length).map (fun i => Id.Num ((1 + i) % u64))) :=
  ⟨by decide, C9_clones_share_counter "http://x" demoTagged (by decide)⟩

/-- Counterexample to C9 as stated: in an interleaved sequence of
`2^64 + 1` prepare calls across a transport and a clone, the wrapped
counter hands out the identifier 1 twice, so the identifiers are not
pairwise distinct. -/
theorem C9_counterexample :
    ¬ (((HttpTransportBuilder.new.build "http://server").prepareSeqShared longTagged).1.map
        MethodCall.id).Nodup := by
  intro hnd
  have ht : (HttpTransportBuilder.new.build "http://server").id < u64 :=
    (by decide : (1:Nat) < u64)
  rw [HttpTransport.prepareSeqShared_eq] at hnd
  obtain ⟨h1, -⟩ := HttpTransport.prepareSeq_ids
    (HttpTransportBuilder.new.build "http://server") (longTagged.map (fun r => r.2)) ht
  rw [h1] at hnd
  have hlen : (longTagged.map (fun r => r.2)).length = u64 + 1 := by
    rw [List.length_map]
    show ((List.range (u64 + 1)).map (fun i => (i % 2, ("m", none)))).length = u64 + 1
    rw [List.length_map, List.length_range]
  rw [hlen] at hnd
  have hinj := List.inj_on_of_nodup_map hnd
  have h0 : (0 : Nat) ∈ List.range (u64 + 1) := List.mem_range.mpr (Nat.succ_pos u64)
  have hu : u64 ∈ List.range (u64 + 1) := List.mem_range.mpr (Nat.lt_succ_self u64)
  have heq : (0 : Nat) = u64 := hinj h0 hu (by decide)
  exact absurd heq (by decide)

/-- C10: `execute_batch` does not check the spec's non-emptiness
precondition: on an empty iterable it wraps the empty sequence as the
`Batch` payload variant — which serializes as the empty JSON array — sends
it, and returns whatever the reply decodes to, with no protocol-layer
failure of its own. -/
theorem C10_empty_batch_sent (net : HttpTransport.Net) (body : Json) (r : Response)
    (hbody : parseResponse body = some r) :
    HttpTransport.execute_batch net [] = HttpTransport.send_request net (.Batch [])
    ∧ serializeRequest (.Batch []) = Json.arr []
    ∧ HttpTransport.execute_batch (fun _ => .ok body) [] = .ok r := by
  refine ⟨rfl, rfl, ?_⟩
  simp [HttpTransport.execute_batch, HttpTransport.send_request, hbody]

/-- Witness for C10 with a server replying with an empty array. -/
theorem C10_witness :
    parseResponse (Json.arr []) = some (Response.Batch [])
    ∧ (HttpTransport.execute_batch (fun _ => .ok (Json.arr [])) []
        = HttpTransport.send_request (fun _ => .ok (Json.arr [])) (.Batch [])
      ∧ serializeRequest (.Batch []) = Json.arr []
      ∧ HttpTransport.execute_batch (fun _ => .ok (Json.arr [])) [] = .ok (Response.Batch [])) :=
  ⟨rfl, C10_empty_batch_sent (fun _ => .ok (Json.arr [])) (Json.arr []) (Response.Batch []) rfl⟩

end AsyncJsonRpc
